import Mathlib

/-!
A shallow embedding of the lock engine of the fmutex repository
(`mutex/mutex.go`) together with theorems checking the repository's
specification against it.

Modelling conventions:
* machine integers (`int64`, `time.Duration` nanosecond counts, millisecond
  timestamps) are `Int`; the values involved never approach the 64-bit
  range, and `strconv.ParseInt`'s explicit 64-bit range check is modelled
  where it occurs;
* the filesystem is a map from path to file content (`none` = absent);
  file content is a list of characters;
* `now()` values and the success or failure of each fallible filesystem
  call inside the acquisition loop are supplied by an explicit
  per-iteration environment, and the unbounded `for` loop is run on a
  finite list of such environments;
* a `context.Context` is observed by the engine only through `ctx.Done()`
  inside `sleepOrDone`, so it is modelled as an optional deadline;
* paths are built with `path.Join` applied to already-clean, non-empty
  components, where it coincides with `/`-concatenation, and
  `strings.ToLower` is applied to ASCII identifiers, where Go's Unicode
  lowering coincides with `String.toLower`.
-/

namespace Fmutex

/-- Filesystem model: a map from path to file content.
`none` means the file does not exist. -/
abbrev Fs : Type := String → Option (List Char)

/-- Point update of the filesystem map. -/
def updateFs (fs : Fs) (p : String) (v : Option (List Char)) : Fs :=
  fun q => if q = p then v else fs q

/-- The empty filesystem. -/
def emptyFs : Fs := fun _ => none

/-- `nano2Millis`: Go's `v / 1000000` on `int64`; Go integer division
truncates toward zero. -/
def nano2Millis (v : Int) : Int := Int.tdiv v 1000000

/-- `millis`: a `time.Duration` (nanoseconds) converted to milliseconds. -/
def millis (d : Int) : Int := nano2Millis d

/-- Decimal digit emission, structurally recursive on a fuel argument. -/
def natCharsAux : Nat → Nat → List Char
  | 0, _ => []
  | fuel + 1, n =>
      if n = 0 then [] else natCharsAux fuel (n / 10) ++ [Nat.digitChar (n % 10)]

/-- Decimal digits of `n`, most significant first, as emitted by
Go `fmt.Sprintf("%d", n)` for a non-negative value. -/
def natChars (n : Nat) : List Char := if n = 0 then ['0'] else natCharsAux n n

/-- `fmt.Sprintf("%d", t)` for an `int64` value. -/
def goFormatInt (t : Int) : List Char :=
  if t < 0 then '-' :: natChars t.natAbs else natChars t.natAbs

/-- The content written by `writeCurrentTimestamp`:
`fmt.Sprintf("%d\n", timestamp)`. -/
def timestampContent (t : Int) : List Char := goFormatInt t ++ ['\n']

/-- Numeric value of a decimal digit character. -/
def digitVal (c : Char) : Nat := c.toNat - '0'.toNat

/-- Whether `c` is one of `'0'..'9'`. -/
def isDigitChar (c : Char) : Bool := decide ('0' ≤ c) && decide (c ≤ '9')

/-- Left-to-right accumulation of a decimal digit run; any non-digit
character makes the parse fail, as in `strconv.ParseUint`. -/
def parseNatAcc : Nat → List Char → Option Nat
  | acc, [] => some acc
  | acc, c :: cs => if isDigitChar c then parseNatAcc (10 * acc + digitVal c) cs else none

/-- A non-empty run of decimal digits; the empty run is a syntax error. -/
def parseDigitRun : List Char → Option Nat
  | [] => none
  | c :: cs => parseNatAcc 0 (c :: cs)

/-- Smallest `int64` value. -/
def int64Min : Int := -(2 ^ 63)

/-- Largest `int64` value. -/
def int64Max : Int := 2 ^ 63 - 1

/-- `strconv.ParseInt`'s 64-bit range check: out-of-range input is an error. -/
def inInt64Range (v : Int) : Option Int :=
  if int64Min ≤ v ∧ v ≤ int64Max then some v else none

/-- `strconv.ParseInt(s, 10, 64)`: an optional single sign, then a
non-empty run of decimal digits, checked against the `int64` range. -/
def goParseInt : List Char → Option Int
  | [] => none
  | c :: rest =>
      if c = '+' then (parseDigitRun rest).bind fun n => inInt64Range (n : Int)
      else if c = '-' then (parseDigitRun rest).bind fun n => inInt64Range (-(n : Int))
      else (parseDigitRun (c :: rest)).bind fun n => inInt64Range (n : Int)

/-- Go `unicode.IsSpace` restricted to the ASCII white-space characters,
the only ones the engine ever writes. -/
def goIsSpace (c : Char) : Bool :=
  c = ' ' || c = '\t' || c = '\n' || c = '\x0b' || c = '\x0c' || c = '\r'

/-- `strings.TrimSpace`: drop white space from both ends. -/
def goTrimSpace (cs : List Char) : List Char :=
  ((cs.dropWhile goIsSpace).reverse.dropWhile goIsSpace).reverse

/-- Content-level part of `readTimestamp`: trim white space and parse;
any parse failure yields 0. -/
def readTimestampStr (content : List Char) : Int :=
  (goParseInt (goTrimSpace content)).getD 0

/-- `readTimestamp`: read the file and parse its trimmed content; any
read or parse error yields 0. -/
def readTimestamp (fs : Fs) (fileName : String) : Int :=
  match fs fileName with
  | none => 0
  | some content => readTimestampStr content

/-- The `Mutex` struct. The three durations are `time.Duration` values,
i.e. signed nanosecond counts. -/
structure Mutex where
  id : String
  directory : String
  deadAgeRecovery : Int
  pulse : Int
  refresh : Int

/-- `DefaultPulse = 500 * time.Millisecond`. -/
def DefaultPulse : Int := 500 * 1000000

/-- `DefaultRefresh = 10 * time.Second`. -/
def DefaultRefresh : Int := 10 * 1000000000

/-- `DefaultDeadTimeout = 60 * time.Minute`. -/
def DefaultDeadTimeout : Int := 60 * 60 * 1000000000

/-- `path.Join` on already-clean, non-empty components. -/
def pathJoin (a b : String) : String := a ++ "/" ++ b

/-- `strings.ToLower` on ASCII identifiers: lower each character. -/
def goToLower (s : String) : String := String.mk (s.data.map Char.toLower)

/-- `NewMutexExt` on an absolute root, with directory creation succeeding:
the directory joins the root with the identifier as passed, while the
stored id is lowered; pulse and refresh fall back to their defaults when
non-positive; the dead-age value is stored as passed. -/
def NewMutexExt (root lockId : String) (pulse refresh deadTimeout : Int) : Mutex :=
  { id := goToLower lockId
    directory := pathJoin root lockId
    deadAgeRecovery := deadTimeout
    pulse := if pulse ≤ 0 then DefaultPulse else pulse
    refresh := if refresh ≤ 0 then DefaultRefresh else refresh }

/-- `NewMutex`: construction with all three defaults. -/
def NewMutex (root lockId : String) : Mutex :=
  NewMutexExt root lockId DefaultPulse DefaultRefresh DefaultDeadTimeout

/-- `LockPath`: the target lock file path,
`path.Join(m.directory, fmt.Sprintf("%s-mutex.lck", m.id))`. -/
def Mutex.LockPath (m : Mutex) : String :=
  pathJoin m.directory (m.id ++ "-mutex.lck")

/-- The `time.Time` values the engine produces: the zero value, or an
instant given by its Unix nanosecond count. -/
inductive GoTime
  | zero
  | unixNano (n : Int)
  deriving DecidableEq

/-- `When`: the stored timestamp as an instant, or the zero time when
`readTimestamp` yields 0. -/
def Mutex.When (m : Mutex) (fs : Fs) : GoTime :=
  let tm := readTimestamp fs m.LockPath
  if tm ≠ 0 then .unixNano (tm * 1000000) else .zero

/-- `os.Remove`: fails when the file is absent. -/
def osRemove (fs : Fs) (p : String) : Except String Fs :=
  if (fs p).isSome then .ok (updateFs fs p none)
  else .error ("remove " ++ p ++ ": no such file or directory")

/-- `TryUnlock`: `os.Remove(m.LockPath())`. -/
def Mutex.TryUnlock (m : Mutex) (fs : Fs) : Except String Fs :=
  osRemove fs m.LockPath

/-- A `context.Context` as observed by the engine (only through
`ctx.Done()`): an optional deadline, in milliseconds. -/
abbrev Ctx := Option Int

/-- `sleepOrDone(ctx, delay)`: true iff the context fires before the sleep
ends; `tEnd` is the instant at which the sleep would end. A background
context never fires. -/
def sleepOrDone (ctx : Ctx) (tEnd : Int) : Bool :=
  match ctx with
  | none => false
  | some d => decide (d ≤ tEnd)

/-- Observable events of one loop iteration: the staleness read of the
target's timestamp, its deletion as dead, the uninterruptible double-pulse
sleep, the interruptible pulse sleep, and a failed post-publish timestamp
write. -/
inductive Ev
  | readDead
  | removedDead
  | doubleSleep
  | pulseSleep
  | targetWriteFailed
  deriving DecidableEq

/-- The error values `LockWithContext` can return. -/
inductive LockErr
  | cannotCreateCandidate (id : String)
  | cannotWriteCandidate (id : String)
  | expired
  deriving DecidableEq

/-- `Error()` strings of the error values. -/
def LockErr.message : LockErr → String
  | .cannotCreateCandidate id => "cannot create candidate lock " ++ id
  | .cannotWriteCandidate id => "cannot write current timestamp for candidate lock " ++ id
  | .expired => "expired"

/-- Environment of one iteration of the acquisition loop: the value of
`now()` during the iteration, the success of the `os.Create` and timestamp
writes on candidate and target, and the instant at which the pulse sleep
would end (the point where `sleepOrDone` observes the context). -/
structure IterIn where
  t : Int
  createCandOk : Bool
  writeCandOk : Bool
  createTargetOk : Bool
  writeTargetOk : Bool
  tSleep : Int
  deriving DecidableEq

/-- Result of one loop iteration: return with the lock held, return with
an error, or go around the loop again. -/
inductive StepRes
  | acquired (fs : Fs)
  | failed (e : LockErr) (fs : Fs)
  | next (fs : Fs) (lastTs : Int)

/-- The filesystem carried by a step result. -/
def StepRes.getFs : StepRes → Fs
  | .acquired fs => fs
  | .failed _ fs => fs
  | .next fs _ => fs

/-- Whether the iteration returned success. -/
def StepRes.isAcquired : StepRes → Bool
  | .acquired _ => true
  | _ => false

/-- Whether the iteration continues the loop. -/
def StepRes.isNext : StepRes → Bool
  | .next _ _ => true
  | _ => false

/-- Whether the iteration returned the `expired` error. -/
def StepRes.isExpiredErr : StepRes → Bool
  | .failed .expired _ => true
  | _ => false

/-- Lines 98–105 of `LockWithContext`: the dead-lock reclamation step,
guarded by `m.deadAgeRecovery >= 0`; a positive stored timestamp older
than the threshold is deleted (the `os.Remove` result is discarded)
followed by an uninterruptible `time.Sleep(m.pulse * 2)`. -/
def reclaimPhase (m : Mutex) (t : Int) (target : String) (fs : Fs) : Fs × List Ev :=
  if 0 ≤ m.deadAgeRecovery then
    let otherTimestamp := readTimestamp fs target
    if 0 < otherTimestamp then
      if millis m.deadAgeRecovery < t - otherTimestamp then
        (updateFs fs target none, [Ev.readDead, Ev.removedDead, Ev.doubleSleep])
      else (fs, [Ev.readDead])
    else (fs, [Ev.readDead])
  else (fs, [])

/-- Lines 107–120 of `LockWithContext`: the `os.Link` publish attempt
(succeeds exactly when the target is absent and the candidate present),
the post-publish timestamp rewrite, and the pulse sleep. In the source the
error check after the post-publish rewrite reads the shadowed — hence nil —
`os.Link` error, so a failed rewrite is not surfaced: the function returns
success regardless. -/
def linkPhase (m : Mutex) (ctx : Ctx) (cand target : String) (inp : IterIn)
    (fs : Fs) (lastTs : Int) : StepRes × List Ev :=
  match fs target, fs cand with
  | none, some content =>
      let fs1 := updateFs fs target (some content)
      if millis m.refresh < inp.t - lastTs then
        if inp.createTargetOk then
          let fs2 := updateFs fs1 target (some [])
          if inp.writeTargetOk then
            (.acquired (updateFs fs2 target (some (timestampContent inp.t))), [])
          else (.acquired fs2, [Ev.targetWriteFailed])
        else (.acquired fs1, [Ev.targetWriteFailed])
      else (.acquired fs1, [])
  | _, _ =>
      if sleepOrDone ctx inp.tSleep then (.failed .expired fs, [])
      else (.next fs lastTs, [Ev.pulseSleep])

/-- One iteration of the `for` loop of `LockWithContext` (lines 90–121):
in the refresh window, rewrite the candidate's timestamp (an `os.Create`
failure is silently skipped; a write failure is returned) and run the
reclamation step; then attempt to publish. -/
def lockStep (m : Mutex) (ctx : Ctx) (cand target : String) (inp : IterIn)
    (fs : Fs) (lastTs : Int) : StepRes × List Ev :=
  if lastTs = 0 ∨ millis m.refresh < inp.t - lastTs then
    if inp.createCandOk then
      let fsA := updateFs fs cand (some [])
      if inp.writeCandOk then
        let fsB := updateFs fsA cand (some (timestampContent inp.t))
        let rp := reclaimPhase m inp.t target fsB
        let lp := linkPhase m ctx cand target inp rp.1 inp.t
        (lp.1, rp.2 ++ lp.2)
      else (.failed (.cannotWriteCandidate m.id) fsA, [])
    else
      let rp := reclaimPhase m inp.t target fs
      let lp := linkPhase m ctx cand target inp rp.1 lastTs
      (lp.1, rp.2 ++ lp.2)
  else linkPhase m ctx cand target inp fs lastTs

/-- Outcome of running the loop on a finite list of iteration
environments: returned with the lock held, returned with an error, or
still looping when the environments ran out. -/
inductive Outcome
  | acquired (fs : Fs)
  | failed (e : LockErr) (fs : Fs)
  | spin (fs : Fs) (lastTs : Int)

/-- Whether the call returned success. -/
def Outcome.isAcquired : Outcome → Bool
  | .acquired _ => true
  | _ => false

/-- Whether the call returned the `expired` error. -/
def Outcome.isExpiredErr : Outcome → Bool
  | .failed .expired _ => true
  | _ => false

/-- The filesystem carried by an outcome. -/
def Outcome.getFs : Outcome → Fs
  | .acquired fs => fs
  | .failed _ fs => fs
  | .spin fs _ => fs

/-- The `for` loop of `LockWithContext`, one environment per iteration. -/
def lockLoop (m : Mutex) (ctx : Ctx) (cand target : String) :
    List IterIn → Fs → Int → Outcome × List Ev
  | [], fs, lastTs => (.spin fs lastTs, [])
  | inp :: rest, fs, lastTs =>
      match lockStep m ctx cand target inp fs lastTs with
      | (.acquired fs1, evs) => (.acquired fs1, evs)
      | (.failed e fs1, evs) => (.failed e fs1, evs)
      | (.next fs1 ts1, evs) =>
          let r := lockLoop m ctx cand target rest fs1 ts1
          (r.1, evs ++ r.2)

/-- The deferred `os.Remove(candidate)` that runs on every exit path of
`LockWithContext` (a `spin` outcome means the loop is still running, so
the deferred removal has not happened yet). -/
def Outcome.dropCandidate (cand : String) : Outcome → Outcome
  | .acquired fs => .acquired (updateFs fs cand none)
  | .failed e fs => .failed e (updateFs fs cand none)
  | .spin fs ts => .spin fs ts

/-- `LockWithContext`: create the candidate file under a fresh unique name
`cand` (`candOk` is the success of `ioutil.TempFile`), run the loop with
`lastTimestamp = 0`, and remove the candidate on exit. -/
def LockWithContext (m : Mutex) (ctx : Ctx) (cand : String) (candOk : Bool)
    (inps : List IterIn) (fs : Fs) : Outcome × List Ev :=
  if candOk then
    let r := lockLoop m ctx cand m.LockPath inps (updateFs fs cand (some [])) 0
    (r.1.dropCandidate cand, r.2)
  else (.failed (.cannotCreateCandidate m.id) fs, [])

/-- `TryLock`: a strictly positive timeout wraps the background context
with a deadline `timeout` from now (`t0` is the current time in
milliseconds); otherwise the background context is used unchanged. -/
def TryLock (m : Mutex) (timeout : Int) (t0 : Int) (cand : String) (candOk : Bool)
    (inps : List IterIn) (fs : Fs) : Outcome × List Ev :=
  LockWithContext m (if 0 < timeout then some (t0 + millis timeout) else none)
    cand candOk inps fs

/-! ### Correctness of the decimal timestamp format -/

theorem natCharsAux_eq (fuel : Nat) : ∀ n : Nat, n ≤ fuel →
    natCharsAux fuel n = ((Nat.digits 10 n).map Nat.digitChar).reverse := by
  induction fuel with
  | zero =>
      intro n hn
      interval_cases n
      simp [natCharsAux]
  | succ fuel ih =>
      intro n hn
      by_cases h0 : n = 0
      · subst h0; simp [natCharsAux]
      · have hpos : 0 < n := Nat.pos_of_ne_zero h0
        have hdiv : n / 10 ≤ fuel := by
          have := Nat.div_lt_self hpos (by norm_num : 1 < 10)
          omega
        rw [natCharsAux, if_neg h0, ih _ hdiv,
          Nat.digits_def' (by norm_num : (1 : ℕ) < 10) hpos]
        simp

theorem digitChar_spec (d : Nat) (h : d < 10) :
    isDigitChar (Nat.digitChar d) = true ∧ goIsSpace (Nat.digitChar d) = false ∧
      digitVal (Nat.digitChar d) = d ∧ Nat.digitChar d ≠ '+' ∧ Nat.digitChar d ≠ '-' := by
  interval_cases d <;> decide

theorem parseNatAcc_digits (ds : List Nat) (h : ∀ d ∈ ds, d < 10) :
    ∀ acc : Nat, parseNatAcc acc (ds.map Nat.digitChar) =
      some (acc * 10 ^ ds.length + Nat.ofDigits 10 ds.reverse) := by
  induction ds with
  | nil => intro acc; simp [parseNatAcc, Nat.ofDigits_nil]
  | cons d ds ih =>
      intro acc
      have hd : d < 10 := h d (by simp)
      have hds : ∀ x ∈ ds, x < 10 := fun x hx => h x (by simp [hx])
      obtain ⟨h1, _, h3, _, _⟩ := digitChar_spec d hd
      simp only [List.map_cons, parseNatAcc, h1, if_true, h3]
      rw [ih hds]
      congr 1
      rw [List.reverse_cons, Nat.ofDigits_append]
      simp only [List.length_reverse, Nat.ofDigits_singleton, List.length_cons]
      ring

theorem natChars_eq (n : Nat) (h : n ≠ 0) :
    natChars n = ((Nat.digits 10 n).map Nat.digitChar).reverse := by
  rw [natChars, if_neg h, natCharsAux_eq n n le_rfl]

theorem natChars_ne_nil (n : Nat) : natChars n ≠ [] := by
  by_cases h : n = 0
  · subst h; simp [natChars]
  · rw [natChars_eq n h]
    simp [Nat.digits_ne_nil_iff_ne_zero.mpr h]

theorem natChars_mem (n : Nat) :
    ∀ c ∈ natChars n, isDigitChar c = true ∧ goIsSpace c = false ∧ c ≠ '+' ∧ c ≠ '-' := by
  intro c hc
  by_cases h : n = 0
  · subst h
    rw [show natChars 0 = ['0'] from rfl, List.mem_singleton] at hc
    subst hc
    refine ⟨by decide, by decide, by decide, by decide⟩
  · rw [natChars_eq n h] at hc
    simp only [List.mem_reverse, List.mem_map] at hc
    obtain ⟨d, hd, rfl⟩ := hc
    have hdlt : d < 10 := Nat.digits_lt_base (by norm_num) hd
    obtain ⟨a, b, _, c1, c2⟩ := digitChar_spec d hdlt
    exact ⟨a, b, c1, c2⟩

theorem parseDigitRun_eq (cs : List Char) (h : cs ≠ []) :
    parseDigitRun cs = parseNatAcc 0 cs := by
  cases cs with
  | nil => exact absurd rfl h
  | cons c cs => rfl

theorem parseDigitRun_natChars (n : Nat) : parseDigitRun (natChars n) = some n := by
  by_cases h : n = 0
  · subst h; decide
  · have heq : natChars n = (Nat.digits 10 n).reverse.map Nat.digitChar := by
      rw [natChars_eq n h, List.map_reverse]
    have hlt : ∀ d ∈ (Nat.digits 10 n).reverse, d < 10 := fun d hd =>
      Nat.digits_lt_base (by norm_num) (List.mem_reverse.mp hd)
    have hne : (Nat.digits 10 n).reverse.map Nat.digitChar ≠ [] := by
      simp [Nat.digits_ne_nil_iff_ne_zero.mpr h]
    rw [heq, parseDigitRun_eq _ hne, parseNatAcc_digits _ hlt 0]
    simp [Nat.ofDigits_digits]

theorem goFormatInt_ne_nil (t : Int) : goFormatInt t ≠ [] := by
  rw [goFormatInt]
  split
  · simp
  · exact natChars_ne_nil _

theorem goFormatInt_not_space (t : Int) :
    ∀ c ∈ goFormatInt t, goIsSpace c = false := by
  intro c hc
  rw [goFormatInt] at hc
  split at hc
  · rcases List.mem_cons.mp hc with rfl | hc
    · decide
    · exact (natChars_mem _ c hc).2.1
  · exact (natChars_mem _ c hc).2.1

theorem goTrimSpace_timestamp (t : Int) :
    goTrimSpace (timestampContent t) = goFormatInt t := by
  obtain ⟨c, cs, hcons⟩ := List.exists_cons_of_ne_nil (goFormatInt_ne_nil t)
  have hA : (timestampContent t).dropWhile goIsSpace = goFormatInt t ++ ['\n'] := by
    rw [timestampContent, hcons, List.cons_append, List.dropWhile_cons]
    have hc : goIsSpace c = false :=
      goFormatInt_not_space t c (hcons ▸ List.mem_cons_self c cs)
    simp [hc]
  obtain ⟨c', cs', hcons'⟩ := List.exists_cons_of_ne_nil
    (show (goFormatInt t).reverse ≠ [] by
      simp [goFormatInt_ne_nil t])
  have hc' : goIsSpace c' = false := by
    apply goFormatInt_not_space t
    exact List.mem_reverse.mp (hcons' ▸ List.mem_cons_self c' cs')
  have hrev : (goFormatInt t).reverse.dropWhile goIsSpace = (goFormatInt t).reverse := by
    rw [hcons', List.dropWhile_cons]
    simp [hc']
  rw [goTrimSpace, hA, List.reverse_append]
  simp only [List.reverse_cons, List.reverse_nil, List.nil_append, List.singleton_append]
  rw [List.dropWhile_cons]
  simp only [show goIsSpace '\n' = true from rfl, if_true, hrev, List.reverse_reverse]

theorem goParseInt_goFormatInt (t : Int) (h1 : int64Min ≤ t) (h2 : t ≤ int64Max) :
    goParseInt (goFormatInt t) = some t := by
  by_cases ht : t < 0
  · rw [goFormatInt, if_pos ht, goParseInt, if_neg (by decide), if_pos rfl,
      parseDigitRun_natChars]
    have habs : -((t.natAbs : Int)) = t := by omega
    simp only [Option.some_bind, inInt64Range, habs]
    rw [if_pos ⟨h1, h2⟩]
  · obtain ⟨c, cs, hcons⟩ := List.exists_cons_of_ne_nil (natChars_ne_nil t.natAbs)
    have hmem := natChars_mem t.natAbs c (hcons ▸ List.mem_cons_self c cs)
    rw [goFormatInt, if_neg ht, hcons, goParseInt, if_neg hmem.2.2.1, if_neg hmem.2.2.2,
      ← hcons, parseDigitRun_natChars]
    have habs : ((t.natAbs : Int)) = t := Int.natAbs_of_nonneg (by omega)
    simp only [Option.some_bind, inInt64Range, habs]
    rw [if_pos ⟨h1, h2⟩]

/-- The persisted plain-text line parses back to the millisecond value it
was written from, for every value representable in an `int64`. -/
theorem readTimestampStr_timestampContent (t : Int)
    (h1 : int64Min ≤ t) (h2 : t ≤ int64Max) :
    readTimestampStr (timestampContent t) = t := by
  rw [readTimestampStr, goTrimSpace_timestamp, goParseInt_goFormatInt t h1 h2]
  rfl

/-! ### Structural lemmas about the acquisition loop -/

@[simp]
theorem updateFs_self (fs : Fs) (p : String) (v : Option (List Char)) :
    updateFs fs p v p = v := by
  simp [updateFs]

theorem updateFs_other (fs : Fs) (p q : String) (v : Option (List Char)) (h : q ≠ p) :
    updateFs fs p v q = fs q := by
  simp [updateFs, h]

/-- With a negative dead-age threshold the reclamation step does nothing
and emits no event. -/
theorem reclaimPhase_neg (m : Mutex) (t : Int) (target : String) (fs : Fs)
    (h : m.deadAgeRecovery < 0) : reclaimPhase m t target fs = (fs, []) := by
  rw [reclaimPhase, if_neg (by omega)]


/-- Shape facts about the publish attempt: an `expired` return happens
exactly when the context fires at the pulse sleep; a `next` only when it
does not; every result is acquired, next, or expired; acquisition leaves
the target present; and the only events are the pulse sleep and a failed
post-publish write. -/
theorem linkPhase_facts (m : Mutex) (ctx : Ctx) (cand target : String) (inp : IterIn)
    (fs : Fs) (lastTs : Int) :
    ((linkPhase m ctx cand target inp fs lastTs).1.isExpiredErr = true →
        sleepOrDone ctx inp.tSleep = true) ∧
    ((linkPhase m ctx cand target inp fs lastTs).1.isNext = true →
        sleepOrDone ctx inp.tSleep = false) ∧
    ((linkPhase m ctx cand target inp fs lastTs).1.isAcquired = true ∨
      (linkPhase m ctx cand target inp fs lastTs).1.isNext = true ∨
      (linkPhase m ctx cand target inp fs lastTs).1.isExpiredErr = true) ∧
    ((linkPhase m ctx cand target inp fs lastTs).1.isAcquired = true →
      ((linkPhase m ctx cand target inp fs lastTs).1.getFs target).isSome = true) ∧
    (∀ e ∈ (linkPhase m ctx cand target inp fs lastTs).2,
      e = Ev.pulseSleep ∨ e = Ev.targetWriteFailed) := by
  rcases h1 : fs target with _ | c1 <;> rcases h2 : fs cand with _ | c2 <;>
    simp only [linkPhase, h1, h2] <;>
    split_ifs <;>
    simp_all [StepRes.isExpiredErr, StepRes.isNext, StepRes.isAcquired, StepRes.getFs]

/-- The same shape facts lifted to a whole loop iteration. The candidate
rewrite can additionally fail with the candidate-write error, which
`inp.writeCandOk = true` rules out. -/
theorem lockStep_facts (m : Mutex) (ctx : Ctx) (cand target : String) (inp : IterIn)
    (fs : Fs) (lastTs : Int) :
    ((lockStep m ctx cand target inp fs lastTs).1.isExpiredErr = true →
        sleepOrDone ctx inp.tSleep = true) ∧
    ((lockStep m ctx cand target inp fs lastTs).1.isNext = true →
        sleepOrDone ctx inp.tSleep = false) ∧
    (inp.writeCandOk = true →
      (lockStep m ctx cand target inp fs lastTs).1.isAcquired = true ∨
        (lockStep m ctx cand target inp fs lastTs).1.isNext = true ∨
        (lockStep m ctx cand target inp fs lastTs).1.isExpiredErr = true) ∧
    ((lockStep m ctx cand target inp fs lastTs).1.isAcquired = true →
      ((lockStep m ctx cand target inp fs lastTs).1.getFs target).isSome = true) := by
  rw [lockStep]
  split_ifs with hw hc hwc
  · exact ⟨(linkPhase_facts m ctx cand target inp _ inp.t).1,
      (linkPhase_facts m ctx cand target inp _ inp.t).2.1,
      fun _ => (linkPhase_facts m ctx cand target inp _ inp.t).2.2.1,
      (linkPhase_facts m ctx cand target inp _ inp.t).2.2.2.1⟩
  · refine ⟨by simp [StepRes.isExpiredErr], by simp [StepRes.isNext],
      fun hok => absurd hok (by simp_all), by simp [StepRes.isAcquired]⟩
  · exact ⟨(linkPhase_facts m ctx cand target inp _ lastTs).1,
      (linkPhase_facts m ctx cand target inp _ lastTs).2.1,
      fun _ => (linkPhase_facts m ctx cand target inp _ lastTs).2.2.1,
      (linkPhase_facts m ctx cand target inp _ lastTs).2.2.2.1⟩
  · exact ⟨(linkPhase_facts m ctx cand target inp fs lastTs).1,
      (linkPhase_facts m ctx cand target inp fs lastTs).2.1,
      fun _ => (linkPhase_facts m ctx cand target inp fs lastTs).2.2.1,
      (linkPhase_facts m ctx cand target inp fs lastTs).2.2.2.1⟩

/-- With a negative threshold a loop iteration emits only pulse-sleep and
failed-target-write events: nothing of the reclamation step. -/
theorem lockStep_events_neg (m : Mutex) (ctx : Ctx) (cand target : String) (inp : IterIn)
    (fs : Fs) (lastTs : Int) (h : m.deadAgeRecovery < 0) :
    ∀ e ∈ (lockStep m ctx cand target inp fs lastTs).2,
      e = Ev.pulseSleep ∨ e = Ev.targetWriteFailed := by
  simp only [lockStep]
  split_ifs with hw hc hwc
  · rw [reclaimPhase_neg _ _ _ _ h]
    simpa using (linkPhase_facts m ctx cand target inp _ inp.t).2.2.2.2
  · simp
  · rw [reclaimPhase_neg _ _ _ _ h]
    simpa using (linkPhase_facts m ctx cand target inp _ lastTs).2.2.2.2
  · exact (linkPhase_facts m ctx cand target inp fs lastTs).2.2.2.2

/-- Run-level version of `lockStep_events_neg`. -/
theorem lockLoop_events_neg (m : Mutex) (ctx : Ctx) (cand target : String)
    (h : m.deadAgeRecovery < 0) :
    ∀ (inps : List IterIn) (fs : Fs) (lastTs : Int),
      ∀ e ∈ (lockLoop m ctx cand target inps fs lastTs).2,
        e = Ev.pulseSleep ∨ e = Ev.targetWriteFailed := by
  intro inps
  induction inps with
  | nil => intro fs lastTs e he; simp [lockLoop] at he
  | cons inp rest ih =>
      intro fs lastTs e he
      rw [lockLoop] at he
      rcases hstep : lockStep m ctx cand target inp fs lastTs with ⟨res, evs⟩
      rw [hstep] at he
      cases res with
      | acquired fs1 => exact lockStep_events_neg m ctx cand target inp fs lastTs h e (by rw [hstep]; exact he)
      | failed e1 fs1 => exact lockStep_events_neg m ctx cand target inp fs lastTs h e (by rw [hstep]; exact he)
      | next fs1 ts1 =>
          rcases List.mem_append.mp he with h1 | h2
          · exact lockStep_events_neg m ctx cand target inp fs lastTs h e (by rw [hstep]; exact h1)
          · exact ih fs1 ts1 e h2

/-- A run never returns the `expired` error under the background context. -/
theorem lockLoop_none_not_expired (m : Mutex) (cand target : String) :
    ∀ (inps : List IterIn) (fs : Fs) (lastTs : Int),
      (lockLoop m none cand target inps fs lastTs).1.isExpiredErr = false := by
  intro inps
  induction inps with
  | nil => intro fs lastTs; simp [lockLoop, Outcome.isExpiredErr]
  | cons inp rest ih =>
      intro fs lastTs
      rw [lockLoop]
      rcases hstep : lockStep m none cand target inp fs lastTs with ⟨res, evs⟩
      have hshape := (lockStep_facts m none cand target inp fs lastTs).1
      rw [hstep] at hshape
      cases res with
      | acquired fs1 => simp [Outcome.isExpiredErr]
      | failed e1 fs1 =>
          cases e1 with
          | expired => simp [StepRes.isExpiredErr, sleepOrDone] at hshape
          | cannotCreateCandidate id => simp [Outcome.isExpiredErr]
          | cannotWriteCandidate id => simp [Outcome.isExpiredErr]
      | next fs1 ts1 => simpa using ih fs1 ts1

/-- An acquiring run always leaves the target lock file present. -/
theorem lockLoop_acquired_target (m : Mutex) (ctx : Ctx) (cand target : String) :
    ∀ (inps : List IterIn) (fs : Fs) (lastTs : Int) (fs1 : Fs),
      (lockLoop m ctx cand target inps fs lastTs).1 = Outcome.acquired fs1 →
        (fs1 target).isSome = true := by
  intro inps
  induction inps with
  | nil => intro fs lastTs fs1 hacq; simp [lockLoop] at hacq
  | cons inp rest ih =>
      intro fs lastTs fs1 hacq
      rw [lockLoop] at hacq
      rcases hstep : lockStep m ctx cand target inp fs lastTs with ⟨res, evs⟩
      rw [hstep] at hacq
      have hshape := (lockStep_facts m ctx cand target inp fs lastTs).2.2.2
      rw [hstep] at hshape
      cases res with
      | acquired fs2 =>
          have : fs2 = fs1 := by
            simpa using congrArg Outcome.getFs hacq
          subst this
          simpa [StepRes.isAcquired, StepRes.getFs] using hshape (by simp [StepRes.isAcquired])
      | failed e1 fs2 => simp at hacq
      | next fs2 ts2 => exact ih fs2 ts2 fs1 (by simpa using hacq)

/-! ### Claim theorems -/

/-- C1: the spec requires two engines built from the same root and
case-insensitively equal identifiers to report the same target lock file
path. The code lowers the identifier in the lock file name but keeps its
original case in the directory component, so the two paths differ;
evaluated here at the failing input, identifiers "A" and "a". -/
theorem c1_case_insensitive_lock_path_fails :
    goToLower "A" = goToLower "a" ∧
    (NewMutex "/r" "A").LockPath = "/r/A/a-mutex.lck" ∧
    (NewMutex "/r" "a").LockPath = "/r/a/a-mutex.lck" ∧
    (NewMutex "/r" "A").LockPath ≠ (NewMutex "/r" "a").LockPath :=
  ⟨by decide, by decide, by decide, by decide⟩

/-- C8: construction substitutes the defaults exactly when pulse or
refresh is non-positive, and stores the dead-age threshold as passed,
never defaulting it. -/
theorem c8_construction_defaults (root lockId : String) (pulse refresh dead : Int) :
    (pulse ≤ 0 → (NewMutexExt root lockId pulse refresh dead).pulse = DefaultPulse) ∧
    (0 < pulse → (NewMutexExt root lockId pulse refresh dead).pulse = pulse) ∧
    (refresh ≤ 0 → (NewMutexExt root lockId pulse refresh dead).refresh = DefaultRefresh) ∧
    (0 < refresh → (NewMutexExt root lockId pulse refresh dead).refresh = refresh) ∧
    (NewMutexExt root lockId pulse refresh dead).deadAgeRecovery = dead := by
  refine ⟨fun h => ?_, fun h => ?_, fun h => ?_, fun h => ?_, rfl⟩ <;>
    simp only [NewMutexExt] <;>
    [rw [if_pos h]; rw [if_neg (by omega)]; rw [if_pos h]; rw [if_neg (by omega)]]

/-- C8 witness: defaults kick in at pulse 0 and refresh -3 while the
dead-age value -7 is stored verbatim; positive pulse 7 and refresh 9 are
kept. -/
theorem c8_construction_defaults_witness :
    (NewMutexExt "/r" "x" 0 (-3) (-7)).pulse = DefaultPulse ∧
    (NewMutexExt "/r" "x" 0 (-3) (-7)).refresh = DefaultRefresh ∧
    (NewMutexExt "/r" "x" 0 (-3) (-7)).deadAgeRecovery = -7 ∧
    (NewMutexExt "/r" "x" 7 9 0).pulse = 7 ∧
    (NewMutexExt "/r" "x" 7 9 0).refresh = 9 :=
  ⟨(c8_construction_defaults "/r" "x" 0 (-3) (-7)).1 (by decide),
   (c8_construction_defaults "/r" "x" 0 (-3) (-7)).2.2.1 (by decide),
   (c8_construction_defaults "/r" "x" 0 (-3) (-7)).2.2.2.2,
   (c8_construction_defaults "/r" "x" 7 9 0).2.1 (by decide),
   (c8_construction_defaults "/r" "x" 7 9 0).2.2.2.1 (by decide)⟩

/-- C9: the reclamation step never deletes a target lock file that is
absent or whose stored timestamp is non-positive (absence, an unreadable
file and an unparseable file all read as 0), however large the threshold
deficit; a deletion happens only for a strictly positive stored timestamp
older than the dead-age threshold. -/
theorem c9_reclaim_only_positive_stale (m : Mutex) (t : Int) (target : String) (fs : Fs) :
    (fs target = none → readTimestamp fs target = 0) ∧
    (readTimestamp fs target ≤ 0 →
      (reclaimPhase m t target fs).1 = fs ∧
        Ev.removedDead ∉ (reclaimPhase m t target fs).2) ∧
    (Ev.removedDead ∈ (reclaimPhase m t target fs).2 →
      0 < readTimestamp fs target ∧
        millis m.deadAgeRecovery < t - readTimestamp fs target) := by
  refine ⟨fun h => by simp only [readTimestamp, h], ?_, ?_⟩ <;>
    simp only [reclaimPhase] <;> split_ifs with h1 h2 h3
  · intro hle; exact absurd h2 (by omega)
  · exact fun _ => ⟨rfl, by simp⟩
  · exact fun _ => ⟨rfl, by simp⟩
  · exact fun _ => ⟨rfl, by simp⟩
  · exact fun _ => ⟨h2, h3⟩
  · intro hmem; simp at hmem
  · intro hmem; simp at hmem
  · intro hmem; simp at hmem

/-- C9 witness: a timestamp-0 (absent) target is untouched; the one
deletion in a concrete reclaiming run happened on a positive, stale
timestamp. -/
theorem c9_reclaim_only_positive_stale_witness :
    (readTimestamp emptyFs "/r/x/x-mutex.lck" = 0) ∧
    ((reclaimPhase (NewMutexExt "/r" "x" 1000000 1000000 0) 5 "/r/x/x-mutex.lck" emptyFs).1 =
      emptyFs ∧
      Ev.removedDead ∉
        (reclaimPhase (NewMutexExt "/r" "x" 1000000 1000000 0) 5 "/r/x/x-mutex.lck" emptyFs).2) ∧
    (0 < readTimestamp
        (updateFs emptyFs "/r/x/x-mutex.lck" (some (timestampContent 1))) "/r/x/x-mutex.lck" ∧
      millis (NewMutexExt "/r" "x" 1000000 1000000 0).deadAgeRecovery <
        5 - readTimestamp
          (updateFs emptyFs "/r/x/x-mutex.lck" (some (timestampContent 1))) "/r/x/x-mutex.lck") :=
  ⟨(c9_reclaim_only_positive_stale (NewMutexExt "/r" "x" 1000000 1000000 0) 5
      "/r/x/x-mutex.lck" emptyFs).1 rfl,
   (c9_reclaim_only_positive_stale (NewMutexExt "/r" "x" 1000000 1000000 0) 5
      "/r/x/x-mutex.lck" emptyFs).2.1 (by decide),
   (c9_reclaim_only_positive_stale (NewMutexExt "/r" "x" 1000000 1000000 0) 5
      "/r/x/x-mutex.lck"
      (updateFs emptyFs "/r/x/x-mutex.lck" (some (timestampContent 1)))).2.2 (by decide)⟩

/-- C10: the status query cannot tell a lock file storing exactly 0 from
the unlocked state: both give the zero time. -/
theorem c10_when_zero_indistinguishable (m : Mutex) (fs1 fs2 : Fs)
    (h1 : fs1 m.LockPath = none) (h2 : fs2 m.LockPath = some (timestampContent 0)) :
    m.When fs1 = GoTime.zero ∧ m.When fs2 = GoTime.zero ∧ m.When fs1 = m.When fs2 := by
  have r1 : readTimestamp fs1 m.LockPath = 0 := by simp only [readTimestamp, h1]
  have r2 : readTimestamp fs2 m.LockPath = 0 := by
    simp only [readTimestamp, h2]
    decide
  refine ⟨?_, ?_, ?_⟩ <;> simp [Mutex.When, r1, r2]

/-- C10 witness: the empty filesystem and a filesystem whose target lock
file holds "0" give the same zero-time answer. -/
theorem c10_when_zero_indistinguishable_witness :
    (NewMutex "/r" "x").When emptyFs = GoTime.zero ∧
    (NewMutex "/r" "x").When
      (updateFs emptyFs (NewMutex "/r" "x").LockPath (some (timestampContent 0))) =
        GoTime.zero ∧
    (NewMutex "/r" "x").When emptyFs =
      (NewMutex "/r" "x").When
        (updateFs emptyFs (NewMutex "/r" "x").LockPath (some (timestampContent 0))) :=
  c10_when_zero_indistinguishable (NewMutex "/r" "x") emptyFs
    (updateFs emptyFs (NewMutex "/r" "x").LockPath (some (timestampContent 0)))
    rfl (by decide)

/-- C7: the persisted lock file content is the plain-text decimal
millisecond value with a trailing newline; reading it back through the
status path returns the same value, and `When` is exactly the instant
with that millisecond timestamp. -/
theorem c7_timestamp_round_trip (m : Mutex) (fs : Fs) (t : Int)
    (hpos : 0 < t) (hmax : t ≤ int64Max)
    (hfs : fs m.LockPath = some (timestampContent t)) :
    readTimestamp fs m.LockPath = t ∧ m.When fs = GoTime.unixNano (t * 1000000) := by
  have hmin : int64Min ≤ t := le_trans (by decide) (le_of_lt hpos)
  have hr : readTimestamp fs m.LockPath = t := by
    simp only [readTimestamp, hfs]
    exact readTimestampStr_timestampContent t hmin hmax
  have hw : m.When fs = if t ≠ 0 then GoTime.unixNano (t * 1000000) else GoTime.zero := by
    simp only [Mutex.When, hr]
  exact ⟨hr, by rw [hw, if_pos (by omega)]⟩

/-- C7 witness: timestamp 1700000000000 round-trips through the file
content and the status query. -/
theorem c7_timestamp_round_trip_witness :
    readTimestamp
      (updateFs emptyFs (NewMutex "/r" "x").LockPath (some (timestampContent 1700000000000)))
      (NewMutex "/r" "x").LockPath = 1700000000000 ∧
    (NewMutex "/r" "x").When
      (updateFs emptyFs (NewMutex "/r" "x").LockPath (some (timestampContent 1700000000000))) =
      GoTime.unixNano (1700000000000 * 1000000) :=
  c7_timestamp_round_trip (NewMutex "/r" "x")
    (updateFs emptyFs (NewMutex "/r" "x").LockPath (some (timestampContent 1700000000000)))
    1700000000000 (by decide) (by decide) (by decide)

/-- C6: release is `os.Remove` of the target lock file path: it fails
with a not-found error when the file is absent (never silently succeeds),
and after any successful acquire it deletes the target lock file, so no
target lock file remains on disk. -/
theorem c6_release_semantics (m : Mutex) (fs fs0 fs1 : Fs) (ctx : Ctx) (cand : String)
    (candOk : Bool) (inps : List IterIn) :
    (fs m.LockPath = none →
      m.TryUnlock fs =
        Except.error ("remove " ++ m.LockPath ++ ": no such file or directory")) ∧
    (cand ≠ m.LockPath →
      (LockWithContext m ctx cand candOk inps fs0).1 = Outcome.acquired fs1 →
      m.TryUnlock fs1 = Except.ok (updateFs fs1 m.LockPath none) ∧
      updateFs fs1 m.LockPath none m.LockPath = none) := by
  constructor
  · intro h
    simp [Mutex.TryUnlock, osRemove, h]
  · intro hne hacq
    have hsome : (fs1 m.LockPath).isSome = true := by
      rw [LockWithContext] at hacq
      by_cases hok : candOk = true
      · rw [if_pos hok] at hacq
        have hacq' :
            (lockLoop m ctx cand m.LockPath inps (updateFs fs0 cand (some [])) 0).1.dropCandidate
              cand = Outcome.acquired fs1 := hacq
        rcases hloop : (lockLoop m ctx cand m.LockPath inps (updateFs fs0 cand (some [])) 0).1
          with fsL | ⟨e, fsL⟩ | ⟨fsL, ts⟩
        · rw [hloop] at hacq'
          simp only [Outcome.dropCandidate, Outcome.acquired.injEq] at hacq'
          have htarget := lockLoop_acquired_target m ctx cand m.LockPath inps
            (updateFs fs0 cand (some [])) 0 fsL hloop
          rw [← hacq', updateFs_other _ _ _ _ (Ne.symm hne)]
          exact htarget
        · rw [hloop] at hacq'
          simp [Outcome.dropCandidate] at hacq'
        · rw [hloop] at hacq'
          simp [Outcome.dropCandidate] at hacq'
      · rw [if_neg hok] at hacq
        simp at hacq
    refine ⟨?_, updateFs_self fs1 m.LockPath none⟩
    rw [Mutex.TryUnlock, osRemove, if_pos hsome]

/-- C6 witness: on the empty filesystem release fails with the not-found
error; a concrete one-iteration acquire run followed by release removes
the target lock file. -/
theorem c6_release_semantics_witness :
    ((NewMutexExt "/r" "x" 1000000 1000000 (-1)).TryUnlock emptyFs =
      Except.error ("remove " ++ (NewMutexExt "/r" "x" 1000000 1000000 (-1)).LockPath ++
        ": no such file or directory")) ∧
    ((NewMutexExt "/r" "x" 1000000 1000000 (-1)).TryUnlock
        (Outcome.getFs
          (LockWithContext (NewMutexExt "/r" "x" 1000000 1000000 (-1)) none
            "/r/x/x-candidate-0.tmp" true [⟨5, true, true, true, true, 6⟩] emptyFs).1) =
      Except.ok
        (updateFs
          (Outcome.getFs
            (LockWithContext (NewMutexExt "/r" "x" 1000000 1000000 (-1)) none
              "/r/x/x-candidate-0.tmp" true [⟨5, true, true, true, true, 6⟩] emptyFs).1)
          (NewMutexExt "/r" "x" 1000000 1000000 (-1)).LockPath none) ∧
      updateFs
        (Outcome.getFs
          (LockWithContext (NewMutexExt "/r" "x" 1000000 1000000 (-1)) none
            "/r/x/x-candidate-0.tmp" true [⟨5, true, true, true, true, 6⟩] emptyFs).1)
        (NewMutexExt "/r" "x" 1000000 1000000 (-1)).LockPath none
        (NewMutexExt "/r" "x" 1000000 1000000 (-1)).LockPath = none) :=
  ⟨(c6_release_semantics (NewMutexExt "/r" "x" 1000000 1000000 (-1)) emptyFs emptyFs
      (Outcome.getFs
        (LockWithContext (NewMutexExt "/r" "x" 1000000 1000000 (-1)) none
          "/r/x/x-candidate-0.tmp" true [⟨5, true, true, true, true, 6⟩] emptyFs).1)
      none "/r/x/x-candidate-0.tmp" true [⟨5, true, true, true, true, 6⟩]).1 rfl,
   (c6_release_semantics (NewMutexExt "/r" "x" 1000000 1000000 (-1)) emptyFs emptyFs
      (Outcome.getFs
        (LockWithContext (NewMutexExt "/r" "x" 1000000 1000000 (-1)) none
          "/r/x/x-candidate-0.tmp" true [⟨5, true, true, true, true, 6⟩] emptyFs).1)
      none "/r/x/x-candidate-0.tmp" true [⟨5, true, true, true, true, 6⟩]).2
    (by decide) (by rfl)⟩

/-- C2 counterexample: an engine whose dead-age threshold is exactly 0
(hence ≤ 0) still reads the target's timestamp for staleness, deletes it
as dead and performs the double-pulse sleep, because the code enables
reclamation for thresholds ≥ 0. -/
theorem c2_threshold_zero_reclaims :
    (NewMutexExt "/r" "x" 1000000 1000000 0).deadAgeRecovery ≤ 0 ∧
    Ev.readDead ∈
      (LockWithContext (NewMutexExt "/r" "x" 1000000 1000000 0) none
        "/r/x/x-candidate-0.tmp" true [⟨5, true, true, true, true, 6⟩]
        (updateFs emptyFs "/r/x/x-mutex.lck" (some (timestampContent 1)))).2 ∧
    Ev.removedDead ∈
      (LockWithContext (NewMutexExt "/r" "x" 1000000 1000000 0) none
        "/r/x/x-candidate-0.tmp" true [⟨5, true, true, true, true, 6⟩]
        (updateFs emptyFs "/r/x/x-mutex.lck" (some (timestampContent 1)))).2 ∧
    Ev.doubleSleep ∈
      (LockWithContext (NewMutexExt "/r" "x" 1000000 1000000 0) none
        "/r/x/x-candidate-0.tmp" true [⟨5, true, true, true, true, 6⟩]
        (updateFs emptyFs "/r/x/x-mutex.lck" (some (timestampContent 1)))).2 := by
  decide

/-- C2 amended: a strictly negative dead-age threshold disables dead-lock
reclamation entirely — no iteration of any acquire call reads the
target's timestamp for staleness, deletes the target as dead, or performs
the double-pulse sleep; a threshold of 0 leaves reclamation enabled. -/
theorem c2_negative_threshold_disables (m : Mutex) (ctx : Ctx) (cand : String)
    (candOk : Bool) (inps : List IterIn) (fs : Fs) (h : m.deadAgeRecovery < 0) :
    Ev.readDead ∉ (LockWithContext m ctx cand candOk inps fs).2 ∧
    Ev.removedDead ∉ (LockWithContext m ctx cand candOk inps fs).2 ∧
    Ev.doubleSleep ∉ (LockWithContext m ctx cand candOk inps fs).2 := by
  have key : ∀ e ∈ (LockWithContext m ctx cand candOk inps fs).2,
      e = Ev.pulseSleep ∨ e = Ev.targetWriteFailed := by
    rw [LockWithContext]
    by_cases hok : candOk = true
    · rw [if_pos hok]
      intro e he
      exact lockLoop_events_neg m ctx cand m.LockPath h inps
        (updateFs fs cand (some [])) 0 e he
    · rw [if_neg hok]
      intro e he
      simp at he
  refine ⟨fun hmem => ?_, fun hmem => ?_, fun hmem => ?_⟩ <;>
    rcases key _ hmem with h1 | h1 <;> simp at h1

/-- C2 witness: with threshold −1 a run against a stale lock file emits
none of the reclamation events. -/
theorem c2_negative_threshold_disables_witness :
    Ev.readDead ∉
      (LockWithContext (NewMutexExt "/r" "x" 1000000 1000000 (-1)) none
        "/r/x/x-candidate-0.tmp" true [⟨5, true, true, true, true, 6⟩]
        (updateFs emptyFs "/r/x/x-mutex.lck" (some (timestampContent 1)))).2 ∧
    Ev.removedDead ∉
      (LockWithContext (NewMutexExt "/r" "x" 1000000 1000000 (-1)) none
        "/r/x/x-candidate-0.tmp" true [⟨5, true, true, true, true, 6⟩]
        (updateFs emptyFs "/r/x/x-mutex.lck" (some (timestampContent 1)))).2 ∧
    Ev.doubleSleep ∉
      (LockWithContext (NewMutexExt "/r" "x" 1000000 1000000 (-1)) none
        "/r/x/x-candidate-0.tmp" true [⟨5, true, true, true, true, 6⟩]
        (updateFs emptyFs "/r/x/x-mutex.lck" (some (timestampContent 1)))).2 :=
  c2_negative_threshold_disables (NewMutexExt "/r" "x" 1000000 1000000 (-1)) none
    "/r/x/x-candidate-0.tmp" true [⟨5, true, true, true, true, 6⟩]
    (updateFs emptyFs "/r/x/x-mutex.lck" (some (timestampContent 1))) (by decide)

/-- C3 counterexample: with the cancellation deadline already passed
(deadline 0, iteration time 5), a reclaiming acquire still performs the
uninterruptible double-pulse sleep and then returns success instead of a
timeout error: the reclamation sleep is not interruptible. -/
theorem c3_cancelled_during_reclaim_still_acquires :
    sleepOrDone (some 0) 5 = true ∧
    Ev.doubleSleep ∈
      (LockWithContext (NewMutexExt "/r" "x" 1000000 1000000 1000000) (some 0)
        "/r/x/x-candidate-0.tmp" true [⟨5, true, true, true, true, 6⟩]
        (updateFs emptyFs "/r/x/x-mutex.lck" (some (timestampContent 1)))).2 ∧
    (LockWithContext (NewMutexExt "/r" "x" 1000000 1000000 1000000) (some 0)
        "/r/x/x-candidate-0.tmp" true [⟨5, true, true, true, true, 6⟩]
        (updateFs emptyFs "/r/x/x-mutex.lck" (some (timestampContent 1)))).1.isAcquired =
      true := by
  decide

/-- C3 amended: only the pulse-interval sleep after a failed publish is
interruptible: an iteration whose cancellation signal has fired by the
end of the pulse sleep never continues the loop past that sleep (it
returns instead); the double-pulse reclamation sleep is not
interruptible, as the counterexample shows. -/
theorem c3_pulse_sleep_interruptible (m : Mutex) (ctx : Ctx) (cand target : String)
    (inp : IterIn) (fs : Fs) (lastTs : Int)
    (h : sleepOrDone ctx inp.tSleep = true) :
    (lockStep m ctx cand target inp fs lastTs).1.isNext = false := by
  by_cases hn : (lockStep m ctx cand target inp fs lastTs).1.isNext = true
  · rw [(lockStep_facts m ctx cand target inp fs lastTs).2.1 hn] at h
    simp at h
  · simpa using hn

/-- C3 witness: with a fired deadline and an occupied target, the
iteration does not continue the loop. -/
theorem c3_pulse_sleep_interruptible_witness :
    sleepOrDone (some 0) (6 : Int) = true ∧
    (lockStep (NewMutexExt "/r" "x" 1000000 1000000 (-1)) (some 0)
        "/r/x/x-candidate-0.tmp" "/r/x/x-mutex.lck" ⟨5, true, true, true, true, 6⟩
        (updateFs emptyFs "/r/x/x-mutex.lck" (some (timestampContent 1))) 0).1.isNext =
      false :=
  ⟨by decide,
   c3_pulse_sleep_interruptible (NewMutexExt "/r" "x" 1000000 1000000 (-1)) (some 0)
     "/r/x/x-candidate-0.tmp" "/r/x/x-mutex.lck" ⟨5, true, true, true, true, 6⟩
     (updateFs emptyFs "/r/x/x-mutex.lck" (some (timestampContent 1))) 0 (by decide)⟩

/-- C4: on a run whose second iteration publishes the candidate and then
fails the post-publish timestamp write, the acquire call still returns
success — the failure is swallowed because the source's error check after
the rewrite inspects the shadowed, nil `os.Link` error — and the target
lock file is left behind truncated to empty. -/
theorem c4_post_publish_write_failure_swallowed :
    Ev.targetWriteFailed ∈
      (LockWithContext (NewMutexExt "/r" "x" 1000000 1000000 3600000000000) none
        "/r/x/x-candidate-0.tmp" true
        [⟨5, true, true, true, true, 6⟩, ⟨10000000, false, true, true, false, 10000001⟩]
        (updateFs emptyFs "/r/x/x-mutex.lck" (some (timestampContent 1)))).2 ∧
    (LockWithContext (NewMutexExt "/r" "x" 1000000 1000000 3600000000000) none
        "/r/x/x-candidate-0.tmp" true
        [⟨5, true, true, true, true, 6⟩, ⟨10000000, false, true, true, false, 10000001⟩]
        (updateFs emptyFs "/r/x/x-mutex.lck" (some (timestampContent 1)))).1.isAcquired =
      true ∧
    Outcome.getFs
      (LockWithContext (NewMutexExt "/r" "x" 1000000 1000000 3600000000000) none
        "/r/x/x-candidate-0.tmp" true
        [⟨5, true, true, true, true, 6⟩, ⟨10000000, false, true, true, false, 10000001⟩]
        (updateFs emptyFs "/r/x/x-mutex.lck" (some (timestampContent 1)))).1
      "/r/x/x-mutex.lck" = some [] := by
  decide

/-- C5: an acquire with timeout ≤ 0 runs under the background context and
can never return the timeout error, waiting indefinitely; with a positive
timeout, an iteration at which the derived deadline has fired either
acquires the lock or returns the error whose message is "expired"
(provided the candidate timestamp write does not itself fail, which
returns its own error). -/
theorem c5_trylock_timeout_behavior (m : Mutex) (timeout t0 : Int) (cand target : String)
    (candOk : Bool) (inps : List IterIn) (fs : Fs) (inp : IterIn) (lastTs : Int) :
    (timeout ≤ 0 → (TryLock m timeout t0 cand candOk inps fs).1.isExpiredErr = false) ∧
    (0 < timeout → inp.writeCandOk = true →
      sleepOrDone (some (t0 + millis timeout)) inp.tSleep = true →
      ((lockStep m (some (t0 + millis timeout)) cand target inp fs lastTs).1.isAcquired =
          true ∨
        (lockStep m (some (t0 + millis timeout)) cand target inp fs lastTs).1.isExpiredErr =
          true)) ∧
    LockErr.expired.message = "expired" := by
  refine ⟨fun hto => ?_, fun hto hw hfired => ?_, rfl⟩
  · rw [TryLock, if_neg (by omega), LockWithContext]
    by_cases hok : candOk = true
    · rw [if_pos hok]
      have hdrop : ∀ o : Outcome, (o.dropCandidate cand).isExpiredErr = o.isExpiredErr := by
        intro o
        cases o with
        | acquired fs2 => rfl
        | failed e fs2 => cases e <;> rfl
        | spin fs2 ts2 => rfl
      show ((lockLoop m none cand m.LockPath inps
        (updateFs fs cand (some [])) 0).1.dropCandidate cand).isExpiredErr = false
      rw [hdrop]
      exact lockLoop_none_not_expired m cand m.LockPath inps (updateFs fs cand (some [])) 0
    · rw [if_neg hok]
      rfl
  · rcases (lockStep_facts m (some (t0 + millis timeout)) cand target inp fs lastTs).2.2.1 hw
      with h | h | h
    · exact Or.inl h
    · rw [(lockStep_facts m (some (t0 + millis timeout)) cand target inp fs lastTs).2.1 h]
        at hfired
      simp at hfired
    · exact Or.inr h

/-- C5 witness: a timeout of −1 never yields the expired error on a
concrete spinning run; with timeout 1 ms already fired, a contended
iteration returns rather than continuing, and the error message is
"expired". -/
theorem c5_trylock_timeout_behavior_witness :
    (TryLock (NewMutexExt "/r" "x" 1000000 1000000 (-1)) (-1) 0
        "/r/x/x-candidate-0.tmp" true [⟨5, true, true, true, true, 6⟩]
        (updateFs emptyFs "/r/x/x-mutex.lck" (some (timestampContent 1)))).1.isExpiredErr =
      false ∧
    ((lockStep (NewMutexExt "/r" "x" 1000000 1000000 (-1)) (some (0 + millis 1000000))
        "/r/x/x-candidate-0.tmp" "/r/x/x-mutex.lck" ⟨5, true, true, true, true, 6⟩
        (updateFs emptyFs "/r/x/x-mutex.lck" (some (timestampContent 1))) 0).1.isAcquired =
        true ∨
      (lockStep (NewMutexExt "/r" "x" 1000000 1000000 (-1)) (some (0 + millis 1000000))
        "/r/x/x-candidate-0.tmp" "/r/x/x-mutex.lck" ⟨5, true, true, true, true, 6⟩
        (updateFs emptyFs "/r/x/x-mutex.lck" (some (timestampContent 1))) 0).1.isExpiredErr =
        true) ∧
    LockErr.expired.message = "expired" :=
  ⟨(c5_trylock_timeout_behavior (NewMutexExt "/r" "x" 1000000 1000000 (-1)) (-1) 0
      "/r/x/x-candidate-0.tmp" "/r/x/x-mutex.lck" true [⟨5, true, true, true, true, 6⟩]
      (updateFs emptyFs "/r/x/x-mutex.lck" (some (timestampContent 1)))
      ⟨5, true, true, true, true, 6⟩ 0).1 (by decide),
   (c5_trylock_timeout_behavior (NewMutexExt "/r" "x" 1000000 1000000 (-1)) 1000000 0
      "/r/x/x-candidate-0.tmp" "/r/x/x-mutex.lck" true [⟨5, true, true, true, true, 6⟩]
      (updateFs emptyFs "/r/x/x-mutex.lck" (some (timestampContent 1)))
      ⟨5, true, true, true, true, 6⟩ 0).2.1 (by decide) (by decide) (by decide),
   (c5_trylock_timeout_behavior (NewMutexExt "/r" "x" 1000000 1000000 (-1)) 1000000 0
      "/r/x/x-candidate-0.tmp" "/r/x/x-mutex.lck" true [⟨5, true, true, true, true, 6⟩]
      (updateFs emptyFs "/r/x/x-mutex.lck" (some (timestampContent 1)))
      ⟨5, true, true, true, true, 6⟩ 0).2.2⟩

end Fmutex
